import Mathlib

/-!
Shallow embedding of the Substrate light-client backend
(src/core/client/src/light/backend.rs) and proofs about it.

Modelling conventions:
- Weak references (std::sync::Weak) are modelled as Option: some means the
  upgrade succeeds, none means the referent has been dropped.
- The external collaborators Blockchain (number-to-hash lookup, expect_header,
  the storage collaborator's import_header, and the weak fetcher handle) and
  Fetcher (remote_read) are modelled as structures of function fields; the
  embedded code calls them exactly where the source does.
- Machine byte strings are List Nat; hashes, headers and authority ids are Nat.
- OnDemandState.storage returns, besides the result, the cache cell after the
  call, the number of expect_header invocations made during the call, and the
  list of remote read requests issued, so that caching and call-count claims
  are statable.
- Fatal aborts (expect / unimplemented) are a distinct outcome constructor,
  not a recoverable error value.
-/

namespace LightClient

abbrev Key := List Nat
abbrev Value := List Nat
abbrev Header := Nat
abbrev AuthorityId := Nat

/-- Block identifier: by hash or by number (runtime_primitives generic::BlockId). -/
inductive BlockId where
  | Hash (h : Nat)
  | Number (n : Nat)
deriving DecidableEq

/-- Display formatting of a block identifier, as used in UnknownBlock messages. -/
def BlockId.fmt : BlockId → String
  | BlockId.Hash h => toString h
  | BlockId.Number n => toString n

/-- Client error kinds relevant to this module (error::ErrorKind). Other is a
stand-in for every remaining error an external collaborator may produce. -/
inductive ClientError where
  | UnknownBlock (what : String)
  | NotAvailableOnLightClient
  | Other (code : Nat)
deriving DecidableEq

/-- Remote read request issued to the fetcher (light::fetcher::RemoteReadRequest). -/
structure RemoteReadRequest where
  block : Nat
  header : Header
  key : Key
  retry_count : Option Nat
deriving DecidableEq

/-- External Fetcher collaborator: remote_read performs the remote state read. -/
structure Fetcher where
  remoteRead : RemoteReadRequest → Except ClientError (Option Value)

/-- External Blockchain collaborator interface used by the backend: the
number-to-hash index, header lookup by block id, the storage collaborator's
import_header, and the weakly obtainable fetcher handle. -/
structure Blockchain where
  hashLookup : Nat → Except ClientError (Option Nat)
  expectHeader : BlockId → Except ClientError Header
  importHeader : Bool → Header → Option (List AuthorityId) → Except ClientError Unit
  fetcher : Option Fetcher

/-- Light client backend: owns the shared blockchain. -/
structure Backend where
  blockchain : Blockchain

/-- Light block import operation (header, is_new_best flag, authorities). -/
structure ImportOperation where
  is_new_best : Bool
  header : Option Header
  authorities : Option (List AuthorityId)
deriving DecidableEq

/-- On-demand state view: weak fetcher, weak blockchain, block hash and the
header cache cell. -/
structure OnDemandState where
  fetcher : Option Fetcher
  blockchain : Option Blockchain
  block : Nat
  cached_header : Option Header

/-- Result.unwrap_or_default on a Result of an Option: an Err collapses to None. -/
def unwrapOrDefault (r : Except ClientError (Option Nat)) : Option Nat :=
  match r with
  | Except.ok v => v
  | Except.error _ => none

/-- Backend::begin_operation: always Ok with a fresh empty operation; the
block id argument is unused. -/
def Backend.begin_operation (_b : Backend) (_blk : BlockId) :
    Except ClientError ImportOperation :=
  Except.ok ⟨false, none, none⟩

/-- Outcome of commit_operation: fatal models the expect-panic on a missing
header; done records the import_header invocations and the returned result. -/
inductive CommitOutcome where
  | fatal
  | done (calls : List (Bool × Header × Option (List AuthorityId)))
         (result : Except ClientError Unit)

/-- Backend::commit_operation: takes the header out of the operation (panicking
if absent) and delegates to the storage collaborator's import_header with
(is_new_best, header, authorities). -/
def Backend.commit_operation (b : Backend) (op : ImportOperation) : CommitOutcome :=
  match op.header with
  | none => CommitOutcome.fatal
  | some h =>
      CommitOutcome.done [(op.is_new_best, h, op.authorities)]
        (b.blockchain.importHeader op.is_new_best h op.authorities)

/-- Backend::state_at: a hash id is used directly; a number id goes through the
number-to-hash index with unwrap_or_default; a None hash is an UnknownBlock
error; otherwise a fresh view with weak references and an empty header cache. -/
def Backend.state_at (b : Backend) (block : BlockId) :
    Except ClientError OnDemandState :=
  let block_hash : Option Nat :=
    match block with
    | BlockId.Hash h => some h
    | BlockId.Number n => unwrapOrDefault (b.blockchain.hashLookup n)
  match block_hash with
  | none => Except.error (ClientError.UnknownBlock (BlockId.fmt block))
  | some h => Except.ok ⟨b.blockchain.fetcher, some b.blockchain, h, none⟩

/-- ImportOperation::set_block_data: stores header and is_new_best; body and
justification are discarded; always Ok. -/
def ImportOperation.set_block_data (op : ImportOperation) (header : Header)
    (_body : Option (List (List Nat))) (_justification : Option Nat)
    (is_new_best : Bool) : ImportOperation × Except ClientError Unit :=
  ({ op with is_new_best := is_new_best, header := some header }, Except.ok ())

/-- ImportOperation::update_authorities: stores the authority set. -/
def ImportOperation.update_authorities (op : ImportOperation)
    (authorities : List AuthorityId) : ImportOperation :=
  { op with authorities := some authorities }

/-- ImportOperation::update_storage: no-op, always Ok (nothing stored locally). -/
def ImportOperation.update_storage (op : ImportOperation) (_update : Unit) :
    ImportOperation × Except ClientError Unit :=
  (op, Except.ok ())

/-- ImportOperation::update_changes_trie: no-op, always Ok. -/
def ImportOperation.update_changes_trie (op : ImportOperation)
    (_update : List Nat) : ImportOperation × Except ClientError Unit :=
  (op, Except.ok ())

/-- ImportOperation::reset_storage: no-op, always Ok. -/
def ImportOperation.reset_storage (op : ImportOperation)
    (_iter : List (Key × Value)) : ImportOperation × Except ClientError Unit :=
  (op, Except.ok ())

/-- Instrumented outcome of one OnDemandState::storage call: the returned
result, the header cache cell after the call, how many expect_header lookups
the call made, and the remote read requests it issued. -/
structure StorageOutcome where
  result : Except ClientError (Option Value)
  cache : Option Header
  headerLookups : Nat
  requests : List RemoteReadRequest

/-- Second half of OnDemandState::storage, after the header is available:
upgrade the weak fetcher (NotAvailableOnLightClient if dropped) and issue the
remote read request with the block hash, the header, the key and no retry
count. The cache argument is the cache cell content at this point; lookups is
the number of expect_header invocations made so far in this call. -/
def storageFetch (fetcher : Option Fetcher) (block : Nat) (h : Header)
    (key : Key) (cache : Option Header) (lookups : Nat) : StorageOutcome :=
  match fetcher with
  | none => ⟨Except.error ClientError.NotAvailableOnLightClient, cache, lookups, []⟩
  | some f =>
      ⟨f.remoteRead ⟨block, h, key, none⟩, cache, lookups, [⟨block, h, key, none⟩]⟩

/-- OnDemandState::storage: read the cache; if empty, upgrade the weak
blockchain (UnknownBlock on failure), look the header up via expect_header
(propagating its error) and write the cache; then fetch through the fetcher. -/
def OnDemandState.storage (s : OnDemandState) (key : Key) : StorageOutcome :=
  match s.cached_header with
  | some h => storageFetch s.fetcher s.block h key (some h) 0
  | none =>
      match s.blockchain with
      | none =>
          ⟨Except.error (ClientError.UnknownBlock (toString s.block)), none, 0, []⟩
      | some bc =>
          match bc.expectHeader (BlockId.Hash s.block) with
          | Except.error e => ⟨Except.error e, none, 1, []⟩
          | Except.ok h => storageFetch s.fetcher s.block h key (some h) 1

/-- OnDemandState::for_keys_with_prefix: the body is empty, so the action
callback is applied to no key at all; the returned list is the sequence of
keys the action is invoked on. -/
def for_keys_with_prefix (_s : OnDemandState) (_pfx : Key) : List Key := []

/-- OnDemandState::pairs: the whole state is not available on a light node. -/
def OnDemandState.pairs (_s : OnDemandState) : List (Key × Value) := []

/-- OnDemandState::storage_root: the default root value and an empty
transaction; dflt is the Default value of the hash output type. -/
def OnDemandState.storage_root (dflt : Nat) (_s : OnDemandState)
    (_delta : List (Key × Option Value)) : Nat × Unit := (dflt, ())

/-- OnDemandState::try_into_trie_backend: always absent. -/
def OnDemandState.try_into_trie_backend (_s : OnDemandState) : Option Unit := none

/-- One storage call together with the resulting view: the cache cell is
updated to the outcome's cache. -/
def applyStorage (s : OnDemandState) (key : Key) : OnDemandState × StorageOutcome :=
  ({ s with cached_header := (OnDemandState.storage s key).cache },
   OnDemandState.storage s key)

/-- A sequence of storage calls on one view, threading the cache cell. -/
def storageSeq : OnDemandState → List Key → List StorageOutcome
  | _, [] => []
  | s, k :: ks => (applyStorage s k).2 :: storageSeq (applyStorage s k).1 ks

/-- Total number of expect_header invocations across a list of outcomes. -/
def totalLookups (os : List StorageOutcome) : Nat :=
  os.foldr (fun o n => o.headerLookups + n) 0

/-- One mutating call on an import operation, for frame reasoning. -/
inductive OpCall where
  | setBlockData (h : Header) (body : Option (List (List Nat)))
      (just : Option Nat) (best : Bool)
  | updateAuthorities (auths : List AuthorityId)
  | updateStorage (t : Unit)
  | updateChangesTrie (u : List Nat)
  | resetStorage (i : List (Key × Value))

/-- Apply one call to an operation (dropping the always-Ok result). -/
def applyCall (op : ImportOperation) (c : OpCall) : ImportOperation :=
  match c with
  | OpCall.setBlockData h body just best => (op.set_block_data h body just best).1
  | OpCall.updateAuthorities a => op.update_authorities a
  | OpCall.updateStorage t => (op.update_storage t).1
  | OpCall.updateChangesTrie u => (op.update_changes_trie u).1
  | OpCall.resetStorage i => (op.reset_storage i).1

/-- Apply a sequence of calls to an operation. -/
def applyCalls (op : ImportOperation) (calls : List OpCall) : ImportOperation :=
  calls.foldl applyCall op

/-- Whether a call is one of the three intentional no-ops. -/
def isNoOp : OpCall → Bool
  | OpCall.updateStorage _ => true
  | OpCall.updateChangesTrie _ => true
  | OpCall.resetStorage _ => true
  | _ => false

/-- Blockchain with an empty store: no number resolves, no header exists. -/
def emptyBlockchain : Blockchain :=
  { hashLookup := fun _ => Except.ok none
    expectHeader := fun b => Except.error (ClientError.UnknownBlock (BlockId.fmt b))
    importHeader := fun _ _ _ => Except.ok ()
    fetcher := none }

/-- Backend over the empty blockchain. -/
def emptyBackend : Backend := ⟨emptyBlockchain⟩

theorem storage_cached_fields (f : Option Fetcher) (b : Option Blockchain)
    (blk : Nat) (h : Header) (k : Key) :
    (OnDemandState.storage ⟨f, b, blk, some h⟩ k).cache = some h ∧
    (OnDemandState.storage ⟨f, b, blk, some h⟩ k).headerLookups = 0 := by
  cases f <;> simp [OnDemandState.storage, storageFetch]

theorem applyStorage_cached_fst (f : Option Fetcher) (b : Option Blockchain)
    (blk : Nat) (h : Header) (k : Key) :
    (applyStorage ⟨f, b, blk, some h⟩ k).1 = ⟨f, b, blk, some h⟩ := by
  simp [applyStorage, (storage_cached_fields f b blk h k).1]

theorem storageSeq_cached (f : Option Fetcher) (b : Option Blockchain)
    (blk : Nat) (h : Header) (ks : List Key) :
    totalLookups (storageSeq ⟨f, b, blk, some h⟩ ks) = 0 ∧
    (storageSeq ⟨f, b, blk, some h⟩ ks).map StorageOutcome.cache
      = List.replicate ks.length (some h) := by
  induction ks with
  | nil => simp [storageSeq, totalLookups]
  | cons k ks ih =>
      have h1 := applyStorage_cached_fst f b blk h k
      have h2 := storage_cached_fields f b blk h k
      have ht := ih.1
      have hm := ih.2
      simp only [totalLookups] at ht ⊢
      simp [storageSeq, h1, applyStorage, h2.1, h2.2, ht, hm, List.replicate_succ]

theorem applyCall_noop (op : ImportOperation) (c : OpCall) (hc : isNoOp c = true) :
    applyCall op c = op := by
  cases c with
  | setBlockData h body just best => simp [isNoOp] at hc
  | updateAuthorities a => simp [isNoOp] at hc
  | updateStorage t => rfl
  | updateChangesTrie u => rfl
  | resetStorage i => rfl

theorem applyCalls_filter_noops (calls : List OpCall) (op : ImportOperation) :
    applyCalls op (calls.filter (fun c => !(isNoOp c))) = applyCalls op calls := by
  induction calls generalizing op with
  | nil => rfl
  | cons c cs ih =>
      cases hv : isNoOp c with
      | true =>
          have hfil : (c :: cs).filter (fun c => !(isNoOp c))
              = cs.filter (fun c => !(isNoOp c)) := by
            simp [List.filter_cons, hv]
          rw [hfil, ih op]
          have hstep : applyCalls op (c :: cs) = applyCalls (applyCall op c) cs := rfl
          rw [hstep, applyCall_noop op c hv]
      | false =>
          have hfil : (c :: cs).filter (fun c => !(isNoOp c))
              = c :: cs.filter (fun c => !(isNoOp c)) := by
            simp [List.filter_cons, hv]
          rw [hfil]
          exact ih (applyCall op c)

/-- Blockchain whose number-to-hash index always fails with a storage error. -/
def errBlockchain : Blockchain :=
  { hashLookup := fun _ => Except.error (ClientError.Other 7)
    expectHeader := fun b => Except.error (ClientError.UnknownBlock (BlockId.fmt b))
    importHeader := fun _ _ _ => Except.ok ()
    fetcher := none }

/-- Backend over the erroring blockchain. -/
def errBackend : Backend := ⟨errBlockchain⟩

/-- C1 (amended): state_at returns UnknownBlock for a block number whose
number-to-hash lookup yields nothing; but for a block hash it always succeeds,
returning a view bound to that hash with an empty header cache and the weak
fetcher and blockchain handles, even when the store has no header for it. -/
theorem state_at_resolution (b : Backend) (n : Nat) (hsh : Nat)
    (hn : unwrapOrDefault (b.blockchain.hashLookup n) = none) :
    Backend.state_at b (BlockId.Number n)
      = Except.error (ClientError.UnknownBlock (BlockId.fmt (BlockId.Number n))) ∧
    Backend.state_at b (BlockId.Hash hsh)
      = Except.ok ⟨b.blockchain.fetcher, some b.blockchain, hsh, none⟩ := by
  constructor
  · simp [Backend.state_at, hn]
  · rfl

/-- Witness for state_at_resolution at the empty blockchain. -/
theorem state_at_resolution_witness :
    Backend.state_at emptyBackend (BlockId.Number 0)
      = Except.error (ClientError.UnknownBlock (BlockId.fmt (BlockId.Number 0))) ∧
    Backend.state_at emptyBackend (BlockId.Hash 5)
      = Except.ok ⟨emptyBackend.blockchain.fetcher, some emptyBackend.blockchain, 5, none⟩ :=
  state_at_resolution emptyBackend 0 5 rfl

/-- C1 counterexample: over the empty blockchain the store has no header at
hash 5 (expect_header fails with UnknownBlock), yet state_at on that hash
succeeds instead of returning an UnknownBlock error as the claim states. -/
theorem state_at_unknown_hash_succeeds :
    emptyBlockchain.expectHeader (BlockId.Hash 5)
      = Except.error (ClientError.UnknownBlock (BlockId.fmt (BlockId.Hash 5))) ∧
    Backend.state_at emptyBackend (BlockId.Hash 5)
      = Except.ok ⟨none, some emptyBlockchain, 5, none⟩ :=
  ⟨rfl, rfl⟩

/-- C6: on a view with an empty header cache whose weak blockchain reference
no longer resolves, storage returns an UnknownBlock error naming the block
hash, for every fetcher state and key. -/
theorem storage_blockchain_dropped (f : Option Fetcher) (blk : Nat) (k : Key) :
    (OnDemandState.storage ⟨f, none, blk, none⟩ k).result
      = Except.error (ClientError.UnknownBlock (toString blk)) := rfl

/-- C8: update_storage, update_changes_trie and reset_storage always return Ok
and leave the operation (is_new_best, header, authorities) unchanged, and
removing every such call from any call sequence leaves the committed result
unchanged. -/
theorem noop_updates_frame (b : Backend) (op : ImportOperation) (t : Unit)
    (u : List Nat) (i : List (Key × Value)) (calls : List OpCall) :
    op.update_storage t = (op, Except.ok ()) ∧
    op.update_changes_trie u = (op, Except.ok ()) ∧
    op.reset_storage i = (op, Except.ok ()) ∧
    Backend.commit_operation b (applyCalls op (calls.filter (fun c => !(isNoOp c))))
      = Backend.commit_operation b (applyCalls op calls) :=
  ⟨rfl, rfl, rfl, by rw [applyCalls_filter_noops]⟩

/-- C9: on any state view, for_keys_with_prefix invokes the action callback on
no key, pairs is the empty list, try_into_trie_backend is absent, and
storage_root is the default root with the empty transaction. -/
theorem light_state_empty_ops (s : OnDemandState) (p : Key) (d : Nat)
    (delta : List (Key × Option Value)) :
    for_keys_with_prefix s p = ([] : List Key) ∧
    OnDemandState.pairs s = [] ∧
    OnDemandState.try_into_trie_backend s = none ∧
    OnDemandState.storage_root d s delta = (d, ()) :=
  ⟨rfl, rfl, rfl, rfl⟩

/-- C10: when the number-to-hash lookup fails with any storage-level error,
state_at discards that error and returns UnknownBlock instead. -/
theorem state_at_discards_lookup_error (b : Backend) (n : Nat) (e : ClientError)
    (he : b.blockchain.hashLookup n = Except.error e) :
    Backend.state_at b (BlockId.Number n)
      = Except.error (ClientError.UnknownBlock (BlockId.fmt (BlockId.Number n))) := by
  simp [Backend.state_at, unwrapOrDefault, he]

/-- Witness for state_at_discards_lookup_error: the lookup fails with Other 7
and state_at returns UnknownBlock. -/
theorem state_at_discards_lookup_error_witness :
    Backend.state_at errBackend (BlockId.Number 3)
      = Except.error (ClientError.UnknownBlock (BlockId.fmt (BlockId.Number 3))) :=
  state_at_discards_lookup_error errBackend 3 (ClientError.Other 7) rfl

/-- Fetcher that answers every remote read with the value [9]. -/
def constFetcher : Fetcher := ⟨fun _ => Except.ok (some [9])⟩

/-- Blockchain storing exactly one block: number 1 maps to hash 10, and the
header at hash 10 is 42; its weak fetcher handle is constFetcher. -/
def oneHeaderBlockchain : Blockchain :=
  { hashLookup := fun n => if n = 1 then Except.ok (some 10) else Except.ok none
    expectHeader := fun b =>
      match b with
      | BlockId.Hash h =>
          if h = 10 then Except.ok 42
          else Except.error (ClientError.UnknownBlock (toString h))
      | BlockId.Number n => Except.error (ClientError.UnknownBlock (toString n))
    importHeader := fun _ _ _ => Except.ok ()
    fetcher := some constFetcher }

/-- C2: on a view with an empty header cache whose blockchain resolves the
header successfully, a sequence of N storage calls performs exactly one
expect_header lookup in total, the first call populates the cache with that
header, and every call of the sequence leaves the cached header in place. -/
theorem storage_resolves_header_once (f : Option Fetcher) (bc : Blockchain)
    (blk : Nat) (h : Header) (k : Key) (ks : List Key)
    (hres : bc.expectHeader (BlockId.Hash blk) = Except.ok h) :
    totalLookups (storageSeq ⟨f, some bc, blk, none⟩ (k :: ks)) = 1 ∧
    (storageSeq ⟨f, some bc, blk, none⟩ (k :: ks)).map StorageOutcome.cache
      = List.replicate (k :: ks).length (some h) := by
  have hfirst : OnDemandState.storage ⟨f, some bc, blk, none⟩ k
      = storageFetch f blk h k (some h) 1 := by
    simp [OnDemandState.storage, hres]
  have hc : (OnDemandState.storage ⟨f, some bc, blk, none⟩ k).cache = some h := by
    rw [hfirst]; cases f <;> rfl
  have hl : (OnDemandState.storage ⟨f, some bc, blk, none⟩ k).headerLookups = 1 := by
    rw [hfirst]; cases f <;> rfl
  have hstate : (applyStorage ⟨f, some bc, blk, none⟩ k).1
      = ⟨f, some bc, blk, some h⟩ := by
    simp [applyStorage, hc]
  have hrest := storageSeq_cached f (some bc) blk h ks
  constructor
  · have ht := hrest.1
    simp only [totalLookups] at ht ⊢
    simp [storageSeq, applyStorage, hl, hc, ht]
  · simp only [storageSeq, hstate, List.map_cons, List.length_cons,
      List.replicate_succ]
    simp [applyStorage, hc, hrest.2]

/-- Witness for storage_resolves_header_once: three calls on the one-header
blockchain make exactly one lookup and keep header 42 cached. -/
theorem storage_resolves_header_once_witness :
    totalLookups (storageSeq ⟨some constFetcher, some oneHeaderBlockchain, 10, none⟩
        ([0] :: [[1], [2]])) = 1 ∧
    (storageSeq ⟨some constFetcher, some oneHeaderBlockchain, 10, none⟩
        ([0] :: [[1], [2]])).map StorageOutcome.cache
      = List.replicate (([0] :: [[1], [2]] : List Key)).length (some 42) :=
  storage_resolves_header_once (some constFetcher) oneHeaderBlockchain 10 42
    [0] [[1], [2]] rfl

/-- C3: once storage reaches the fetcher (header cached, or resolvable from
the blockchain), the call returns exactly what remote_read returns: Ok Some,
Ok None and errors are all propagated unchanged. -/
theorem storage_propagates_fetcher_result (f : Fetcher) (b : Option Blockchain)
    (bc : Blockchain) (blk : Nat) (h : Header) (k k2 : Key)
    (hres : bc.expectHeader (BlockId.Hash blk) = Except.ok h) :
    (OnDemandState.storage ⟨some f, b, blk, some h⟩ k).result
      = f.remoteRead ⟨blk, h, k, none⟩ ∧
    (OnDemandState.storage ⟨some f, some bc, blk, none⟩ k2).result
      = f.remoteRead ⟨blk, h, k2, none⟩ := by
  constructor
  · rfl
  · simp [OnDemandState.storage, storageFetch, hres]

/-- Witness for storage_propagates_fetcher_result on the one-header chain. -/
theorem storage_propagates_fetcher_result_witness :
    (OnDemandState.storage ⟨some constFetcher, none, 10, some 42⟩ [3]).result
      = constFetcher.remoteRead ⟨10, 42, [3], none⟩ ∧
    (OnDemandState.storage ⟨some constFetcher, some oneHeaderBlockchain, 10, none⟩ [4]).result
      = constFetcher.remoteRead ⟨10, 42, [4], none⟩ :=
  storage_propagates_fetcher_result constFetcher none oneHeaderBlockchain 10 42
    [3] [4] rfl

/-- C5: on a view whose weak fetcher reference no longer resolves, storage
returns NotAvailableOnLightClient for every key, both when the header is
already cached and when it is freshly resolvable from the blockchain. -/
theorem storage_fetcher_dropped (b : Option Blockchain) (bc : Blockchain)
    (blk : Nat) (h : Header) (k k2 : Key)
    (hres : bc.expectHeader (BlockId.Hash blk) = Except.ok h) :
    (OnDemandState.storage ⟨none, b, blk, some h⟩ k).result
      = Except.error ClientError.NotAvailableOnLightClient ∧
    (OnDemandState.storage ⟨none, some bc, blk, none⟩ k2).result
      = Except.error ClientError.NotAvailableOnLightClient := by
  constructor
  · rfl
  · simp [OnDemandState.storage, storageFetch, hres]

/-- Witness for storage_fetcher_dropped on the one-header chain. -/
theorem storage_fetcher_dropped_witness :
    (OnDemandState.storage ⟨none, none, 10, some 42⟩ [1]).result
      = Except.error ClientError.NotAvailableOnLightClient ∧
    (OnDemandState.storage ⟨none, some oneHeaderBlockchain, 10, none⟩ [2]).result
      = Except.error ClientError.NotAvailableOnLightClient :=
  storage_fetcher_dropped none oneHeaderBlockchain 10 42 [1] [2] rfl

/-- C7: every successful storage call issues exactly one remote read request,
and it carries the view's block hash, the cached resolved header, the
requested key, and an unset retry count. -/
theorem storage_request_exact (s : OnDemandState) (k : Key) (v : Option Value)
    (hok : (OnDemandState.storage s k).result = Except.ok v) :
    (OnDemandState.storage s k).requests
      = [⟨s.block, ((OnDemandState.storage s k).cache).getD 0, k, none⟩] ∧
    ((OnDemandState.storage s k).cache).isSome = true := by
  obtain ⟨f, b, blk, ch⟩ := s
  cases ch with
  | some h =>
      cases f with
      | none => simp [OnDemandState.storage, storageFetch] at hok
      | some ft => simp [OnDemandState.storage, storageFetch]
  | none =>
      cases b with
      | none => simp [OnDemandState.storage] at hok
      | some bc =>
          cases hb : bc.expectHeader (BlockId.Hash blk) with
          | error e => simp [OnDemandState.storage, hb] at hok
          | ok h =>
              cases f with
              | none => simp [OnDemandState.storage, storageFetch, hb] at hok
              | some ft => simp [OnDemandState.storage, storageFetch, hb]

/-- Witness for storage_request_exact: a successful cached call issues the one
request (10, 42, [3], none). -/
theorem storage_request_exact_witness :
    (OnDemandState.storage ⟨some constFetcher, none, 10, some 42⟩ [3]).requests
      = [⟨10, 42, [3], none⟩] ∧
    ((OnDemandState.storage ⟨some constFetcher, none, 10, some 42⟩ [3]).cache).isSome
      = true :=
  storage_request_exact ⟨some constFetcher, none, 10, some 42⟩ [3] (some [9]) rfl

/-- C4: commit_operation with a populated header invokes import_header exactly
once with (is_new_best, header, authorities) and returns the collaborator's
result; with no header it aborts fatally; begin_operation yields the empty
operation; and the set_block_data then update_authorities scenario commits
with (true, h1, some [a1, a2]). -/
theorem commit_invokes_import_header (b : Backend) (op op2 : ImportOperation)
    (h h1 : Header) (blk : BlockId) (body : Option (List (List Nat)))
    (just : Option Nat) (a1 a2 : AuthorityId)
    (hh : op.header = some h) (hh2 : op2.header = none) :
    Backend.commit_operation b op
      = CommitOutcome.done [(op.is_new_best, h, op.authorities)]
          (b.blockchain.importHeader op.is_new_best h op.authorities) ∧
    Backend.commit_operation b op2 = CommitOutcome.fatal ∧
    Backend.begin_operation b blk = Except.ok ⟨false, none, none⟩ ∧
    Backend.commit_operation b
        (ImportOperation.update_authorities
          (ImportOperation.set_block_data ⟨false, none, none⟩ h1 body just true).1
          [a1, a2])
      = CommitOutcome.done [(true, h1, some [a1, a2])]
          (b.blockchain.importHeader true h1 (some [a1, a2])) := by
  refine ⟨?_, ?_, rfl, rfl⟩
  · simp [Backend.commit_operation, hh]
  · simp [Backend.commit_operation, hh2]

/-- Witness for commit_invokes_import_header over the empty blockchain. -/
theorem commit_invokes_import_header_witness :
    Backend.commit_operation emptyBackend ⟨true, some 42, some [1, 2]⟩
      = CommitOutcome.done [(true, 42, some [1, 2])]
          (emptyBackend.blockchain.importHeader true 42 (some [1, 2])) ∧
    Backend.commit_operation emptyBackend ⟨false, none, none⟩ = CommitOutcome.fatal ∧
    Backend.begin_operation emptyBackend (BlockId.Number 0)
      = Except.ok ⟨false, none, none⟩ ∧
    Backend.commit_operation emptyBackend
        (ImportOperation.update_authorities
          (ImportOperation.set_block_data ⟨false, none, none⟩ 7 none none true).1
          [1, 2])
      = CommitOutcome.done [(true, 7, some [1, 2])]
          (emptyBackend.blockchain.importHeader true 7 (some [1, 2])) :=
  commit_invokes_import_header emptyBackend ⟨true, some 42, some [1, 2]⟩
    ⟨false, none, none⟩ 42 7 (BlockId.Number 0) none none 1 2 rfl rfl

end LightClient
